import Mathlib

/-!
Verification of the Slint template repository's callback-handler glue.

The templates under `templates/` wire a generated UI object to callback
handlers and start an event loop.  We embed the state fields of each
generated UI object as a structure, the generated `set_<field>` accessors
as functions that also record the name of the written field in a trace,
the weak-handle upgrade as an `Option` of the state, and a panic
(`Option::unwrap` on a dead handle) as the error of an `Except`.
Compile-time `cfg` branches are embedded as a function of an explicit
`BuildTarget` record, with the branches tried in the source's textual
order.
-/

/-- The compile-time target configuration consulted by the `cfg` attributes. -/
structure BuildTarget where
  target_os : String
  target_arch : String
deriving DecidableEq

/-- State fields of the generated `CrossPlatformApp` UI object
(templates/cross-platform). -/
structure CrossPlatformState where
  current_theme : String
  status_text : String
  platform_info : String
  test_results : String
deriving DecidableEq

/-- A state paired with the trace of field names written so far. -/
abbrev Traced (σ : Type) := σ × List String

/-- Generated accessor `set_current_theme`, recording the write. -/
def set_current_theme (v : String) (s : Traced CrossPlatformState) :
    Traced CrossPlatformState :=
  ({ s.1 with current_theme := v }, s.2 ++ ["current_theme"])

/-- Generated accessor `set_status_text`, recording the write. -/
def set_status_text (v : String) (s : Traced CrossPlatformState) :
    Traced CrossPlatformState :=
  ({ s.1 with status_text := v }, s.2 ++ ["status_text"])

/-- Generated accessor `set_platform_info`, recording the write. -/
def set_platform_info (v : String) (s : Traced CrossPlatformState) :
    Traced CrossPlatformState :=
  ({ s.1 with platform_info := v }, s.2 ++ ["platform_info"])

/-- Generated accessor `set_test_results`, recording the write. -/
def set_test_results (v : String) (s : Traced CrossPlatformState) :
    Traced CrossPlatformState :=
  ({ s.1 with test_results := v }, s.2 ++ ["test_results"])

/-- `get_platform_info` (cross-platform/src/main.rs): the chain of
`cfg`-guarded early returns, tried in source order, with the trailing
literal `"Unknown"` as fallback. -/
def get_platform_info (t : BuildTarget) : String :=
  if t.target_os = "windows" then "Windows"
  else if t.target_os = "macos" then "macOS"
  else if t.target_os = "linux" then "Linux"
  else if t.target_arch = "wasm32" then "WebAssembly"
  else if t.target_os = "android" then "Android"
  else if t.target_os = "ios" then "iOS"
  else "Unknown"

/-- `get_backend_info` (cross-platform/src/main.rs). -/
def get_backend_info (t : BuildTarget) : String :=
  if t.target_os = "windows" then "Win32"
  else if t.target_os = "macos" then "Cocoa"
  else if t.target_os = "linux" then "X11/Wayland"
  else if t.target_arch = "wasm32" then "WebGL"
  else "Default"

/-- `get_available_features` (cross-platform/src/main.rs): the base list,
extended by the desktop features on non-wasm32 targets and by the web
features on wasm32. -/
def get_available_features (t : BuildTarget) : List String :=
  let features := ["Basic UI", "Animations", "Theming"]
  if t.target_arch = "wasm32" then
    features ++ ["Web integration", "Browser storage"]
  else
    features ++ ["File dialogs", "System tray", "Multiple windows"]

/-- `show_platform_info` (cross-platform/src/main.rs): formats the three
probe results and writes the `platform_info` field. -/
def show_platform_info (t : BuildTarget) (app : CrossPlatformState) :
    Traced CrossPlatformState :=
  let platform := get_platform_info t
  let backend := get_backend_info t
  let features := get_available_features t
  let info := "Platform: " ++ platform ++ "\nBackend: " ++ backend
      ++ "\nFeatures: " ++ String.intercalate ", " features
  set_platform_info info (app, [])

/-- `test_platform_features` (cross-platform/src/main.rs): builds the
result lines (with the `cfg`-selected threading and file-system lines)
and writes the `test_results` field. -/
def test_platform_features (t : BuildTarget) (app : CrossPlatformState) :
    Traced CrossPlatformState :=
  let test_results := ["Window operations: OK"]
  let test_results := test_results ++
    (if t.target_arch = "wasm32" then ["Threading: Limited"]
     else ["Threading: Available"])
  let test_results := test_results ++
    (if t.target_arch = "wasm32" then ["File system: Browser storage"]
     else ["File system: Available"])
  let test_results := test_results ++ ["Graphics: Hardware accelerated"]
  set_test_results (String.intercalate "\n" test_results) (app, [])

/-- Body of the `on_toggle_theme` closure (cross-platform/src/main.rs,
lines 49-58), run with the upgraded UI object. -/
def toggle_theme_body (app : CrossPlatformState) : Traced CrossPlatformState :=
  let current_theme := app.current_theme
  let new_theme := if current_theme = "light" then "dark" else "light"
  let s := set_current_theme new_theme (app, [])
  let status := "Theme changed to " ++ new_theme
  set_status_text status s

/-- The registered `on_show_platform_info` handler: a checked
`if let Some(app) = app_weak.upgrade()` around `show_platform_info`.
A dead handle (`none`) falls through silently. -/
def on_show_platform_info (t : BuildTarget) (w : Option CrossPlatformState) :
    Except String (Option (Traced CrossPlatformState)) :=
  match w with
  | some app => .ok (some (show_platform_info t app))
  | none => .ok none

/-- The registered `on_test_features` handler: checked upgrade around
`test_platform_features`. -/
def on_test_features (t : BuildTarget) (w : Option CrossPlatformState) :
    Except String (Option (Traced CrossPlatformState)) :=
  match w with
  | some app => .ok (some (test_platform_features t app))
  | none => .ok none

/-- The registered `on_toggle_theme` handler: checked upgrade around the
toggle body. -/
def on_toggle_theme (w : Option CrossPlatformState) :
    Except String (Option (Traced CrossPlatformState)) :=
  match w with
  | some app => .ok (some (toggle_theme_body app))
  | none => .ok none

/-- State fields of the generated `ComponentLibraryDemo` UI object
(templates/component-library). -/
structure ComponentLibraryState where
  notification_text : String
deriving DecidableEq

/-- Generated accessor `set_notification_text`, recording the write. -/
def set_notification_text (v : String) (s : Traced ComponentLibraryState) :
    Traced ComponentLibraryState :=
  ({ s.1 with notification_text := v }, s.2 ++ ["notification_text"])

/-- Body of the `on_primary_button_clicked` closure
(component-library/src/main.rs, lines 8-11). -/
def primary_button_clicked_body (window : ComponentLibraryState) :
    Traced ComponentLibraryState :=
  set_notification_text "Primary button clicked!" (window, [])

/-- Body of the `on_secondary_button_clicked` closure. -/
def secondary_button_clicked_body (window : ComponentLibraryState) :
    Traced ComponentLibraryState :=
  set_notification_text "Secondary button clicked!" (window, [])

/-- Body of the `on_card_button_clicked` closure: formats
`"Card {} clicked!"` with the index and writes the notification text. -/
def card_button_clicked_body (card_index : Int) (window : ComponentLibraryState) :
    Traced ComponentLibraryState :=
  let message := "Card " ++ toString card_index ++ " clicked!"
  set_notification_text message (window, [])

/-- Body of the `on_switch_toggled` closure: formats
`"Switch is now {}"` with `"ON"` or `"OFF"`. -/
def switch_toggled_body (is_on : Bool) (window : ComponentLibraryState) :
    Traced ComponentLibraryState :=
  let status := if is_on then "ON" else "OFF"
  let message := "Switch is now " ++ status
  set_notification_text message (window, [])

/-- The registered `on_primary_button_clicked` handler: the closure calls
`window_weak.unwrap()`, which panics (modelled as `Except.error`) when the
UI object has been destroyed. -/
def on_primary_button_clicked (w : Option ComponentLibraryState) :
    Except String (Option (Traced ComponentLibraryState)) :=
  match w with
  | some window => .ok (some (primary_button_clicked_body window))
  | none => .error "called Option::unwrap on a None value"

/-- The registered `on_secondary_button_clicked` handler: unwraps the weak
handle, panicking on a dead handle. -/
def on_secondary_button_clicked (w : Option ComponentLibraryState) :
    Except String (Option (Traced ComponentLibraryState)) :=
  match w with
  | some window => .ok (some (secondary_button_clicked_body window))
  | none => .error "called Option::unwrap on a None value"

/-- The registered `on_card_button_clicked` handler: unwraps the weak
handle, panicking on a dead handle. -/
def on_card_button_clicked (card_index : Int) (w : Option ComponentLibraryState) :
    Except String (Option (Traced ComponentLibraryState)) :=
  match w with
  | some window => .ok (some (card_button_clicked_body card_index window))
  | none => .error "called Option::unwrap on a None value"

/-- The registered `on_switch_toggled` handler: unwraps the weak handle,
panicking on a dead handle. -/
def on_switch_toggled (is_on : Bool) (w : Option ComponentLibraryState) :
    Except String (Option (Traced ComponentLibraryState)) :=
  match w with
  | some window => .ok (some (switch_toggled_body is_on window))
  | none => .error "called Option::unwrap on a None value"

/-- The single error kind raised by construction and `run`. -/
abbrev PlatformError := String

/-- Observable entry-point events: a handler registration or entering the
blocking event loop. -/
inductive AppEvent
  | registered (name : String)
  | ranEventLoop
deriving DecidableEq

/-- `setup_event_handlers` (cross-platform/src/main.rs, lines 30-61):
registers the three handlers and ends with `Ok(())`.  The returned trace
lists the registrations in source order. -/
def setup_event_handlers (app : CrossPlatformState) :
    Except PlatformError (CrossPlatformState × List AppEvent) :=
  .ok (app, [.registered "show_platform_info", .registered "test_features",
             .registered "toggle_theme"])

/-- `run_app` (cross-platform/src/main.rs, lines 17-28), parameterised by
the toolkit-supplied outcomes of `CrossPlatformApp::new()` and `run()`.
Returns the propagated result together with the trace of entry-point
events. -/
def run_app (t : BuildTarget)
    (newResult : Except PlatformError CrossPlatformState)
    (runResult : CrossPlatformState → Except PlatformError Unit) :
    Except PlatformError Unit × List AppEvent :=
  match newResult with
  | .error e => (.error e, [])
  | .ok main_window =>
    match setup_event_handlers main_window with
    | .error e => (.error e, [])
    | .ok (w, evs) =>
      let w2 := (show_platform_info t w).1
      (runResult w2, evs ++ [.ranEventLoop])

/-- `main` (basic-app/src/main.rs, lines 6-15), parameterised by the
outcomes of `MainWindow::new()` and `run()`.  The basic template registers
no handlers. -/
def basic_app_main (newResult : Except PlatformError Unit)
    (runResult : Except PlatformError Unit) :
    Except PlatformError Unit × List AppEvent :=
  match newResult with
  | .error e => (.error e, [])
  | .ok _ => (runResult, [.ranEventLoop])

/-- Modelled from the spec: the counter increment handler.  The counter
logic of the basic template lives in the UI-markup (`.slint`) files, which
are not part of the sources; per the spec the increment handler adds one
to the stored counter value. -/
def increment_counter (c : Int) : Int := c + 1

/-- Modelled from the spec: the counter reset handler.  Per the spec the
reset handler stores zero regardless of the current counter value. -/
def reset_counter (_c : Int) : Int := 0

/-- C1, counterexample: the registered `on_primary_button_clicked` handler
resolves its weak handle with `unwrap`, so invoking it after the UI object
has been destroyed panics instead of being a silent no-op. -/
theorem c1_counterexample :
    on_primary_button_clicked none =
      Except.error "called Option::unwrap on a None value" := rfl

/-- C1 (amended): every handler that resolves its weak handle with a
checked `if let Some` upgrade (the three cross-platform handlers) is a
silent no-op after the UI object is destroyed — no error, no field write;
the four component-library handlers resolve the handle with `unwrap` and
panic after destruction instead of being no-ops. -/
theorem c1_checked_upgrade_silent_noop :
    (∀ t : BuildTarget, on_show_platform_info t none = Except.ok none) ∧
    (∀ t : BuildTarget, on_test_features t none = Except.ok none) ∧
    on_toggle_theme none = Except.ok none ∧
    (on_primary_button_clicked none).isOk = false ∧
    (on_secondary_button_clicked none).isOk = false ∧
    (∀ i : Int, (on_card_button_clicked i none).isOk = false) ∧
    (∀ b : Bool, (on_switch_toggled b none).isOk = false) :=
  ⟨fun _ => rfl, fun _ => rfl, rfl, rfl, rfl, fun _ => rfl, fun _ => rfl⟩

/-- C2, counterexample: the theme-toggle handler body performs two field
writes (`current_theme`, then `status_text`), not exactly one. -/
theorem c2_counterexample :
    (toggle_theme_body ⟨"light", "", "", ""⟩).2 = ["current_theme", "status_text"] ∧
    (toggle_theme_body ⟨"light", "", "", ""⟩).2.length ≠ 1 :=
  ⟨rfl, by decide⟩

/-- C2 (amended): every handler invocation with the UI object alive writes
exactly one state field — except the theme-toggle handler, which writes
exactly two (`current_theme`, then `status_text`); all fields a handler
does not write are unchanged. -/
theorem c2_write_traces :
    (∀ w, (primary_button_clicked_body w).2 = ["notification_text"]) ∧
    (∀ w, (secondary_button_clicked_body w).2 = ["notification_text"]) ∧
    (∀ (i : Int) w, (card_button_clicked_body i w).2 = ["notification_text"]) ∧
    (∀ (b : Bool) w, (switch_toggled_body b w).2 = ["notification_text"]) ∧
    (∀ t app, (show_platform_info t app).2 = ["platform_info"]) ∧
    (∀ t app, (test_platform_features t app).2 = ["test_results"]) ∧
    (∀ app, (toggle_theme_body app).2 = ["current_theme", "status_text"]) ∧
    (∀ t app, (show_platform_info t app).1.current_theme = app.current_theme ∧
      (show_platform_info t app).1.status_text = app.status_text ∧
      (show_platform_info t app).1.test_results = app.test_results) ∧
    (∀ t app, (test_platform_features t app).1.current_theme = app.current_theme ∧
      (test_platform_features t app).1.status_text = app.status_text ∧
      (test_platform_features t app).1.platform_info = app.platform_info) ∧
    (∀ app, (toggle_theme_body app).1.platform_info = app.platform_info ∧
      (toggle_theme_body app).1.test_results = app.test_results) :=
  ⟨fun _ => rfl, fun _ => rfl, fun _ _ => rfl, fun _ _ => rfl, fun _ _ => rfl,
   fun _ _ => rfl, fun _ => rfl, fun _ _ => ⟨rfl, rfl, rfl⟩,
   fun _ _ => ⟨rfl, rfl, rfl⟩, fun _ => ⟨rfl, rfl⟩⟩

/-- C3, counterexample: from the starting theme value `""` (neither
`"light"` nor `"dark"`), toggling twice yields `"dark"`, not the original
value — the toggle is not an involution on every starting value. -/
theorem c3_counterexample :
    (toggle_theme_body (toggle_theme_body ⟨"", "", "", ""⟩).1).1.current_theme ≠ "" := by
  decide

/-- C3 (amended): for every starting theme value in the two-valued set
`"light"`/`"dark"`, invoking the theme-toggle handler twice returns the
theme field to its original value. -/
theorem c3_toggle_involution (app : CrossPlatformState)
    (h : app.current_theme = "light" ∨ app.current_theme = "dark") :
    (toggle_theme_body (toggle_theme_body app).1).1.current_theme
      = app.current_theme := by
  rcases h with h | h <;>
    simp [toggle_theme_body, set_current_theme, set_status_text, h]

/-- C3 witness: toggling twice from `"light"` returns `"light"`. -/
theorem c3_toggle_involution_witness :
    (toggle_theme_body (toggle_theme_body ⟨"light", "", "", ""⟩).1).1.current_theme
      = (⟨"light", "", "", ""⟩ : CrossPlatformState).current_theme :=
  c3_toggle_involution ⟨"light", "", "", ""⟩ (Or.inl rfl)

/-- C4: the card-click handler with argument `i` sets the notification
text to `"Card " ++ toString i ++ " clicked!"`, which contains the decimal
rendering of `i`; in particular `i = 0` yields `"Card 0 clicked!"`. -/
theorem c4_card_click_sets_index_text :
    (∀ (i : Int) (w : ComponentLibraryState),
      (card_button_clicked_body i w).1.notification_text
        = "Card " ++ toString i ++ " clicked!") ∧
    (∀ (i : Int) (w : ComponentLibraryState), ∃ pre post,
      (card_button_clicked_body i w).1.notification_text
        = pre ++ toString i ++ post) ∧
    (∀ w : ComponentLibraryState,
      (card_button_clicked_body 0 w).1.notification_text = "Card 0 clicked!") :=
  ⟨fun _ _ => rfl, fun _ _ => ⟨"Card ", " clicked!", rfl⟩, fun _ => rfl⟩

/-- C5: the switch-toggle handler sets the displayed text to a string
containing `"ON"` when invoked with `true` and `"OFF"` when invoked with
`false`. -/
theorem c5_switch_toggle_status_text :
    (∀ w : ComponentLibraryState, ∃ pre post,
      (switch_toggled_body true w).1.notification_text = pre ++ "ON" ++ post) ∧
    (∀ w : ComponentLibraryState, ∃ pre post,
      (switch_toggled_body false w).1.notification_text = pre ++ "OFF" ++ post) :=
  ⟨fun _ => ⟨"Switch is now ", "", rfl⟩, fun _ => ⟨"Switch is now ", "", rfl⟩⟩

/-- C6: for every build target each platform-probe function returns one of
its branch literals (it is total, with no error path), and an unrecognized
target falls back to `"Unknown"` respectively `"Default"`. -/
theorem c6_platform_probe_total_with_fallback (t : BuildTarget) :
    get_platform_info t ∈
      ["Windows", "macOS", "Linux", "WebAssembly", "Android", "iOS", "Unknown"] ∧
    get_backend_info t ∈ ["Win32", "Cocoa", "X11/Wayland", "WebGL", "Default"] ∧
    (t.target_os ∉ (["windows", "macos", "linux", "android", "ios"] : List String) →
      t.target_arch ≠ "wasm32" → get_platform_info t = "Unknown") ∧
    (t.target_os ∉ (["windows", "macos", "linux"] : List String) →
      t.target_arch ≠ "wasm32" → get_backend_info t = "Default") := by
  refine ⟨?_, ?_, fun h1 h2 => ?_, fun h1 h2 => ?_⟩ <;>
    simp only [get_platform_info, get_backend_info] <;>
    split_ifs <;> simp_all

/-- C6 witness: an unrecognized target yields the fallback literals. -/
theorem c6_platform_probe_witness :
    get_platform_info ⟨"freebsd", "x86_64"⟩ = "Unknown" ∧
    get_backend_info ⟨"freebsd", "x86_64"⟩ = "Default" :=
  ⟨(c6_platform_probe_total_with_fallback ⟨"freebsd", "x86_64"⟩).2.2.1
      (by decide) (by decide),
   (c6_platform_probe_total_with_fallback ⟨"freebsd", "x86_64"⟩).2.2.2
      (by decide) (by decide)⟩

/-- C7: a construction error is returned unchanged by the entry point with
no handler registered and the event loop never entered, and an error from
`run` is returned unchanged — in both the cross-platform and the basic
template. -/
theorem c7_error_propagation :
    (∀ (e : PlatformError) (t : BuildTarget)
        (r : CrossPlatformState → Except PlatformError Unit),
      run_app t (.error e) r = (.error e, [])) ∧
    (∀ (t : BuildTarget) (st : CrossPlatformState) (e : PlatformError),
      (run_app t (.ok st) (fun _ => .error e)).1 = .error e) ∧
    (∀ (e : PlatformError) (r : Except PlatformError Unit),
      basic_app_main (.error e) r = (.error e, [])) ∧
    (∀ e : PlatformError,
      basic_app_main (.ok ()) (.error e) = (.error e, [.ranEventLoop])) :=
  ⟨fun _ _ _ => rfl, fun _ _ _ => rfl, fun _ _ => rfl, fun _ => rfl⟩

/-- C8: invoking the increment handler n times from a zero counter yields
n, and the reset handler yields zero from any counter value. -/
theorem c8_counter_increment_reset :
    (∀ n : Nat, increment_counter^[n] (0 : Int) = n) ∧
    (∀ c : Int, reset_counter c = 0) := by
  constructor
  · intro n
    induction n with
    | zero => simp
    | succ k ih =>
      simp [Function.iterate_succ_apply', ih, increment_counter]
  · intro _
    rfl

/-- C9: `setup_event_handlers` always returns `Ok`, registering the three
handlers in source order; it has no failure path. -/
theorem c9_setup_event_handlers_always_ok (app : CrossPlatformState) :
    setup_event_handlers app =
      Except.ok (app, [.registered "show_platform_info",
                       .registered "test_features",
                       .registered "toggle_theme"]) := rfl

/-- C10: `show_platform_info` writes the `platform_info` field to exactly
the formatted string built from the two probe results and the feature
list joined with `", "`; on every build target the feature list starts
with `"Basic UI"`, `"Animations"`, `"Theming"` and is nonempty. -/
theorem c10_show_platform_info_format (t : BuildTarget) (app : CrossPlatformState) :
    (show_platform_info t app).1.platform_info
      = "Platform: " ++ get_platform_info t ++ "\nBackend: " ++ get_backend_info t
        ++ "\nFeatures: " ++ String.intercalate ", " (get_available_features t) ∧
    (get_available_features t).take 3 = ["Basic UI", "Animations", "Theming"] ∧
    get_available_features t ≠ [] := by
  refine ⟨rfl, ?_, ?_⟩ <;>
    · unfold get_available_features
      by_cases h : t.target_arch = "wasm32" <;> simp [h]
